import Mathlib

/-!
Shallow embedding of the muddy2 MIDI streaming parser
(src/message.rs, src/assert_from.rs, src/helper_methods.rs, src/parser.rs).

Bytes are modelled as `Nat` (Rust `u8` guarantees values below 256; theorems
that depend on that bound carry it as a hypothesis).  Fallible Rust control
flow is modelled with `Except Fault`: a Rust panic (`todo!()`,
`unreachable!()`, a failed `assert!`/`assert_eq!`, or a failed
`assert_from`/`unwrap` of a range-checked conversion) becomes `.error` with
the matching `Fault` constructor, and ordinary returns become `.ok`.
`bytes_consumed` (Rust `u8`) and `byte_index` (Rust `usize`) are `Nat`;
no reachable value approaches an overflow boundary.
-/

set_option maxHeartbeats 1000000
set_option maxRecDepth 10000

namespace Muddy

/-- The distinct ways the Rust code can panic.  `valueConstruction` is the
panic of `AssertFrom::assert_from` (src/assert_from.rs) or of `unwrap` on a
range-checked conversion; the others correspond to `todo!()`,
`unreachable!()` and failed `assert!`/`assert_eq!` macros. -/
inductive Fault where
  | todoUnimplemented
  | unreachableCode
  | assertionFailed
  | valueConstruction
deriving DecidableEq

deriving instance DecidableEq for Except

/-- Result of Rust code that may panic (and, for `Result`-returning
functions, may also error: the source never constructs an `Err`, so every
`.error` here is a panic). -/
abbrev M (α : Type) : Type := Except Fault α

/-- `u7::Unsigned7` (src/message.rs): 7-bit unsigned value. -/
structure Unsigned7 where
  val : Nat
deriving DecidableEq

/-- `TryFrom<u8> for Unsigned7`. -/
def Unsigned7.try_from (value : Nat) : Option Unsigned7 :=
  if value ≤ 127 then some ⟨value⟩ else none

/-- `Unsigned7::assert_from` via the blanket `AssertFrom` impl. -/
def Unsigned7.assert_from (value : Nat) : M Unsigned7 :=
  match Unsigned7.try_from value with
  | some u => .ok u
  | none => .error .valueConstruction

/-- `u14::Unsigned14` (src/message.rs): 14-bit unsigned value. -/
structure Unsigned14 where
  val : Nat
deriving DecidableEq

/-- `TryFrom<[u8; 2]> for Unsigned14`: bytes in wire order (lsb, msb). -/
def Unsigned14.try_from (value : Nat × Nat) : Option Unsigned14 :=
  if value.1 ≤ 127 ∧ value.2 ≤ 127 then
    some ⟨(value.2 <<< 7) ||| value.1⟩
  else none

/-- `Unsigned14::assert_from` via the blanket `AssertFrom` impl. -/
def Unsigned14.assert_from (value : Nat × Nat) : M Unsigned14 :=
  match Unsigned14.try_from value with
  | some u => .ok u
  | none => .error .valueConstruction

/-- `MidiChannelId` (src/message.rs). -/
structure MidiChannelId where
  val : Nat
deriving DecidableEq

/-- `TryFrom<u8> for MidiChannelId`. -/
def MidiChannelId.try_from (value : Nat) : Option MidiChannelId :=
  if value < 16 then some ⟨value⟩ else none

/-- `MidiChannelId::assert_from` via the blanket `AssertFrom` impl. -/
def MidiChannelId.assert_from (value : Nat) : M MidiChannelId :=
  match MidiChannelId.try_from value with
  | some c => .ok c
  | none => .error .valueConstruction

/-- `cvm::NoteNumber`. -/
structure NoteNumber where
  u7 : Unsigned7
deriving DecidableEq

/-- `cvm::KeyVelocity`. -/
structure KeyVelocity where
  u7 : Unsigned7
deriving DecidableEq

/-- `cvm::ControlNumber`. -/
structure ControlNumber where
  u7 : Unsigned7
deriving DecidableEq

/-- `cvm::ProgramNumber`. -/
structure ProgramNumber where
  u7 : Unsigned7
deriving DecidableEq

/-- `cvm::NoteOff`. -/
structure NoteOff where
  note_number : NoteNumber
  velocity : KeyVelocity
deriving DecidableEq

/-- `cvm::NoteOn`. -/
structure NoteOn where
  note_number : NoteNumber
  velocity : KeyVelocity
deriving DecidableEq

/-- `cvm::PolyphonicKeyPressureAftertouch`. -/
structure PolyphonicKeyPressureAftertouch where
  note_number : NoteNumber
  value : Unsigned7
deriving DecidableEq

/-- `cvm::ControlChange`. -/
structure ControlChange where
  control_number : ControlNumber
  value : Unsigned7
deriving DecidableEq

/-- `cvm::ProgramChange`. -/
structure ProgramChange where
  program_number : ProgramNumber
deriving DecidableEq

/-- `cvm::ChannelPressureAftertouch`. -/
structure ChannelPressureAftertouch where
  value : Unsigned7
deriving DecidableEq

/-- `cvm::PitchBendChange`. -/
structure PitchBendChange where
  value : Unsigned14
deriving DecidableEq

/-- `ChannelVoiceMessage` (src/message.rs). -/
inductive ChannelVoiceMessage where
  | NoteOff (m : NoteOff)
  | NoteOn (m : NoteOn)
  | PolyphonicKeyPressureAftertouch (m : PolyphonicKeyPressureAftertouch)
  | ControlChange (m : ControlChange)
  | ProgramChange (m : ProgramChange)
  | ChannelPressureAftertouch (m : ChannelPressureAftertouch)
  | PitchBendChange (m : PitchBendChange)
deriving DecidableEq

/-- `ChannelModeMessage` (src/message.rs), discriminants 120..=127. -/
inductive ChannelModeMessage where
  | AllSoundOff
  | ResetAllControllers
  | LocalControl
  | AllNotesOff
  | OmniOff
  | OmniOn
  | MonoOn
  | PolyOn
deriving DecidableEq

/-- `TryFromPrimitive` for `ChannelModeMessage`. -/
def ChannelModeMessage.try_from (value : Nat) : Option ChannelModeMessage :=
  if value = 120 then some .AllSoundOff
  else if value = 121 then some .ResetAllControllers
  else if value = 122 then some .LocalControl
  else if value = 123 then some .AllNotesOff
  else if value = 124 then some .OmniOff
  else if value = 125 then some .OmniOn
  else if value = 126 then some .MonoOn
  else if value = 127 then some .PolyOn
  else none

/-- `ChannelMessageType` (src/message.rs). -/
inductive ChannelMessageType where
  | ChannelVoice (m : ChannelVoiceMessage)
  | ChannelMode (m : ChannelModeMessage)
deriving DecidableEq

/-- `ChannelMessage` (src/message.rs). -/
structure ChannelMessage where
  channel : MidiChannelId
  message : ChannelMessageType
deriving DecidableEq

/-- `SystemCommonMessage` (src/message.rs): a unit struct in the source. -/
structure SystemCommonMessage where
deriving DecidableEq

/-- `SystemRealTimeMessage` (src/message.rs), discriminants 0xF8..=0xFF. -/
inductive SystemRealTimeMessage where
  | TimingClock
  | Undefined1
  | Start
  | Continue
  | Stop
  | Undefined2
  | ActiveSensing
  | SystemReset
deriving DecidableEq

/-- `SystemExclusiveMessage` (src/message.rs): a unit struct in the source. -/
structure SystemExclusiveMessage where
deriving DecidableEq

/-- `SystemMessage` (src/message.rs). -/
inductive SystemMessage where
  | SystemCommon (m : SystemCommonMessage)
  | SystemRealTime (m : SystemRealTimeMessage)
  | SystemExclusive (m : SystemExclusiveMessage)
deriving DecidableEq

/-- `Message` (src/message.rs). -/
inductive Message where
  | Channel (m : ChannelMessage)
  | System (m : SystemMessage)
deriving DecidableEq

/-- `ChannelVoiceMessage::should_note_on` (src/message.rs). -/
def ChannelVoiceMessage.should_note_on :
    ChannelVoiceMessage → Option (NoteNumber × KeyVelocity)
  | .NoteOn note_on =>
    let velocity := note_on.velocity.u7.val
    if velocity ≠ 0 then some (note_on.note_number, note_on.velocity)
    else none
  | _ => none

/-- `ChannelVoiceMessage::should_note_off` (src/message.rs). -/
def ChannelVoiceMessage.should_note_off :
    ChannelVoiceMessage → Option (NoteNumber × KeyVelocity)
  | .NoteOn note_on =>
    let velocity := note_on.velocity.u7.val
    if velocity = 0 then some (note_on.note_number, note_on.velocity)
    else none
  | .NoteOff note_off => some (note_off.note_number, note_off.velocity)
  | _ => none

/-- `cvm::PitchBendChange::is_centered` (src/helper_methods.rs). -/
def PitchBendChange.is_centered (p : PitchBendChange) : Bool :=
  p.value.val == 0x2000

/-- `MessageParseOutcomeStatus` (src/parser.rs). -/
inductive MessageParseOutcomeStatus where
  | Message (m : Message)
  | NeedMoreBytes (n : Option Nat)
  | InterruptingSystemRealTimeMessage
      (message : SystemRealTimeMessage) (byte_index : Nat)
  | UnexpectedDataByte
  | UnexpectedEox
  | BrokenMessage
deriving DecidableEq

/-- `MessageParseOutcome` (src/parser.rs). -/
structure MessageParseOutcome where
  bytes_consumed : Nat
  status : MessageParseOutcomeStatus
deriving DecidableEq

/-- `is_status_byte` (src/parser.rs). -/
def is_status_byte (byte : Nat) : Bool :=
  byte &&& 0b10000000 != 0

/-- `StatusByte` (src/parser.rs): newtype over a status byte. -/
structure StatusByte where
  val : Nat
deriving DecidableEq

/-- `Parser` (src/parser.rs): the running-status register is the sole state. -/
structure Parser where
  running_status_byte : Option StatusByte
deriving DecidableEq

/-- `Parser::new`. -/
def Parser.new : Parser := ⟨none⟩

/-- `DataBytes` (src/parser.rs).  The borrowed slice becomes a list. -/
inductive DataBytes where
  | Bytes (bytes : List Nat)
  | NeedMore (n : Option Nat)
  | InterruptingStatusByte (index : Nat)
deriving DecidableEq

/- `mod status_nibbles` (src/parser.rs). -/

abbrev CHANNEL_VOICE_MESSAGE_NOTE_OFF : Nat := 0b1000
abbrev CHANNEL_VOICE_MESSAGE_NOTE_ON : Nat := 0b1001
abbrev CHANNEL_VOICE_MESSAGE_POLYPHONIC_KEY_PRESSURE_AFTERTOUCH : Nat := 0b1010
abbrev CHANNEL_VOICE_MESSAGE_CONTROL_CHANGE_OR_CHANNEL_MODE_MESSAGE : Nat := 0b1011
abbrev CHANNEL_VOICE_MESSAGE_PROGRAM_CHANGE : Nat := 0b1100
abbrev CHANNEL_VOICE_MESSAGE_CHANNEL_PRESSURE_AFTERTOUCH : Nat := 0b1101
abbrev CHANNEL_VOICE_MESSAGE_PITCH_BEND_CHANGE : Nat := 0b1110
abbrev SYSTEM_MESSAGE : Nat := 0b1111

/- `mod system_status_bytes` (src/parser.rs). -/

abbrev SYSTEM_EXCLUSIVE : Nat := 0xF0
abbrev SYSTEM_COMMON_MIDI_TIME_QUARTER_FRAME : Nat := 0xF1
abbrev SYSTEM_COMMON_SONG_POSITION_POINTER : Nat := 0xF2
abbrev SYSTEM_COMMON_SONG_SELECT : Nat := 0xF3
abbrev SYSTEM_COMMON_UNDEFINED_1 : Nat := 0xF4
abbrev SYSTEM_COMMON_UNDEFINED_2 : Nat := 0xF5
abbrev SYSTEM_COMMON_TUNE_REQUEST : Nat := 0xF6
abbrev SYSTEM_END_OF_SYSTEM_EXCLUSIVE_FLAG : Nat := 0xF7
abbrev SYSTEM_REALTIME_TIMING_CLOCK : Nat := 0xF8
abbrev SYSTEM_REALTIME_UNDEFINED_1 : Nat := 0xF9
abbrev SYSTEM_REALTIME_START : Nat := 0xFA
abbrev SYSTEM_REALTIME_CONTINUE : Nat := 0xFB
abbrev SYSTEM_REALTIME_STOP : Nat := 0xFC
abbrev SYSTEM_REALTIME_UNDEFINED_2 : Nat := 0xFD
abbrev SYSTEM_REALTIME_ACTIVE_SENSING : Nat := 0xFE
abbrev SYSTEM_REALTIME_SYSTEM_RESET : Nat := 0xFF

/-- Index of the first status byte in a list, if any: models the scanning
loops of `get_data_bytes` and `get_sysex_bytes` (src/parser.rs). -/
def find_status_index : List Nat → Option Nat
  | [] => none
  | b :: rest =>
    if is_status_byte b then some 0
    else (find_status_index rest).map (· + 1)

/-- `get_data_bytes` (src/parser.rs). -/
def get_data_bytes (buf : List Nat) (num : Nat) : DataBytes :=
  if buf.length < num then
    .NeedMore (some (num - buf.length))
  else
    let bytes := buf.take num
    match find_status_index bytes with
    | some index => .InterruptingStatusByte index
    | none => .Bytes bytes

/-- `get_sysex_bytes` (src/parser.rs).  The returned bytes include the EOX
marker, as in the source. -/
def get_sysex_bytes (buf : List Nat) : DataBytes :=
  match find_status_index buf with
  | none => .NeedMore none
  | some index =>
    if buf.getD index 0 = SYSTEM_END_OF_SYSTEM_EXCLUSIVE_FLAG then
      .Bytes (buf.take (index + 1))
    else
      .InterruptingStatusByte index

/-- `StatusByte::data_bytes` (src/parser.rs).  The `unreachable!()` arms of
the source become `.error .unreachableCode`. -/
def StatusByte.data_bytes (s : StatusByte) (buf : List Nat) : M DataBytes :=
  let status_nibble := s.val >>> 4
  if status_nibble = CHANNEL_VOICE_MESSAGE_NOTE_OFF then .ok (get_data_bytes buf 2)
  else if status_nibble = CHANNEL_VOICE_MESSAGE_NOTE_ON then .ok (get_data_bytes buf 2)
  else if status_nibble = CHANNEL_VOICE_MESSAGE_POLYPHONIC_KEY_PRESSURE_AFTERTOUCH then .ok (get_data_bytes buf 2)
  else if status_nibble = CHANNEL_VOICE_MESSAGE_CONTROL_CHANGE_OR_CHANNEL_MODE_MESSAGE then .ok (get_data_bytes buf 2)
  else if status_nibble = CHANNEL_VOICE_MESSAGE_PROGRAM_CHANGE then .ok (get_data_bytes buf 1)
  else if status_nibble = CHANNEL_VOICE_MESSAGE_CHANNEL_PRESSURE_AFTERTOUCH then .ok (get_data_bytes buf 1)
  else if status_nibble = CHANNEL_VOICE_MESSAGE_PITCH_BEND_CHANGE then .ok (get_data_bytes buf 2)
  else if status_nibble = SYSTEM_MESSAGE then
    if s.val = SYSTEM_COMMON_MIDI_TIME_QUARTER_FRAME then .ok (get_data_bytes buf 1)
    else if s.val = SYSTEM_COMMON_SONG_POSITION_POINTER then .ok (get_data_bytes buf 2)
    else if s.val = SYSTEM_COMMON_SONG_SELECT then .ok (get_data_bytes buf 1)
    else if s.val = SYSTEM_COMMON_UNDEFINED_1 then .ok (get_data_bytes buf 0)
    else if s.val = SYSTEM_COMMON_UNDEFINED_2 then .ok (get_data_bytes buf 0)
    else if s.val = SYSTEM_COMMON_TUNE_REQUEST then .ok (get_data_bytes buf 0)
    else if s.val = SYSTEM_REALTIME_TIMING_CLOCK then .ok (get_data_bytes buf 0)
    else if s.val = SYSTEM_REALTIME_UNDEFINED_1 then .ok (get_data_bytes buf 0)
    else if s.val = SYSTEM_REALTIME_START then .ok (get_data_bytes buf 0)
    else if s.val = SYSTEM_REALTIME_CONTINUE then .ok (get_data_bytes buf 0)
    else if s.val = SYSTEM_REALTIME_STOP then .ok (get_data_bytes buf 0)
    else if s.val = SYSTEM_REALTIME_UNDEFINED_2 then .ok (get_data_bytes buf 0)
    else if s.val = SYSTEM_REALTIME_ACTIVE_SENSING then .ok (get_data_bytes buf 0)
    else if s.val = SYSTEM_REALTIME_SYSTEM_RESET then .ok (get_data_bytes buf 0)
    else if s.val = SYSTEM_END_OF_SYSTEM_EXCLUSIVE_FLAG then .ok (get_data_bytes buf 0)
    else if s.val = SYSTEM_EXCLUSIVE then .ok (get_sysex_bytes buf)
    else .error .unreachableCode
  else .error .unreachableCode

/-- `StatusByte::parse_system_message` (src/parser.rs).  The `todo!()`
arms become `.error .todoUnimplemented`, after their `assert_eq!` checks. -/
def StatusByte.parse_system_message (s : StatusByte) (bytes : List Nat) :
    M MessageParseOutcome :=
  if s.val = SYSTEM_COMMON_MIDI_TIME_QUARTER_FRAME then
    if bytes.length = 1 then .error .todoUnimplemented else .error .assertionFailed
  else if s.val = SYSTEM_COMMON_SONG_POSITION_POINTER then
    if bytes.length = 2 then .error .todoUnimplemented else .error .assertionFailed
  else if s.val = SYSTEM_COMMON_SONG_SELECT then
    if bytes.length = 1 then .error .todoUnimplemented else .error .assertionFailed
  else if s.val = SYSTEM_COMMON_UNDEFINED_1 then
    if bytes.length = 0 then .error .todoUnimplemented else .error .assertionFailed
  else if s.val = SYSTEM_COMMON_UNDEFINED_2 then
    if bytes.length = 0 then .error .todoUnimplemented else .error .assertionFailed
  else if s.val = SYSTEM_COMMON_TUNE_REQUEST then
    if bytes.length = 0 then .error .todoUnimplemented else .error .assertionFailed
  else if s.val = SYSTEM_REALTIME_TIMING_CLOCK then
    if bytes.length = 0 then
      .ok ⟨0, .Message (.System (.SystemRealTime .TimingClock))⟩
    else .error .assertionFailed
  else if s.val = SYSTEM_REALTIME_UNDEFINED_1 then
    if bytes.length = 0 then
      .ok ⟨0, .Message (.System (.SystemRealTime .Undefined1))⟩
    else .error .assertionFailed
  else if s.val = SYSTEM_REALTIME_START then
    if bytes.length = 0 then
      .ok ⟨0, .Message (.System (.SystemRealTime .Start))⟩
    else .error .assertionFailed
  else if s.val = SYSTEM_REALTIME_CONTINUE then
    if bytes.length = 0 then
      .ok ⟨0, .Message (.System (.SystemRealTime .Continue))⟩
    else .error .assertionFailed
  else if s.val = SYSTEM_REALTIME_STOP then
    if bytes.length = 0 then
      .ok ⟨0, .Message (.System (.SystemRealTime .Stop))⟩
    else .error .assertionFailed
  else if s.val = SYSTEM_REALTIME_UNDEFINED_2 then
    if bytes.length = 0 then
      .ok ⟨0, .Message (.System (.SystemRealTime .Undefined2))⟩
    else .error .assertionFailed
  else if s.val = SYSTEM_REALTIME_ACTIVE_SENSING then
    if bytes.length = 0 then
      .ok ⟨0, .Message (.System (.SystemRealTime .ActiveSensing))⟩
    else .error .assertionFailed
  else if s.val = SYSTEM_REALTIME_SYSTEM_RESET then
    if bytes.length = 0 then
      .ok ⟨0, .Message (.System (.SystemRealTime .SystemReset))⟩
    else .error .assertionFailed
  else if s.val = SYSTEM_END_OF_SYSTEM_EXCLUSIVE_FLAG then
    if bytes.length = 0 then
      .ok ⟨0, .UnexpectedEox⟩
    else .error .assertionFailed
  else if s.val = SYSTEM_EXCLUSIVE then
    if bytes.getLast? = some SYSTEM_END_OF_SYSTEM_EXCLUSIVE_FLAG then
      .error .todoUnimplemented
    else .error .assertionFailed
  else .error .unreachableCode

/-- `StatusByte::parse_exact_number_of_bytes` (src/parser.rs). -/
def StatusByte.parse_exact_number_of_bytes (s : StatusByte) (bytes : List Nat) :
    M MessageParseOutcome :=
  if s.val ≠ SYSTEM_EXCLUSIVE ∧ bytes.any is_status_byte then
    .error .assertionFailed
  else
    let status_nibble := s.val >>> 4
    match MidiChannelId.assert_from (s.val &&& 0b1111) with
    | .error e => .error e
    | .ok channel =>
      if status_nibble = CHANNEL_VOICE_MESSAGE_NOTE_OFF then
        if bytes.length = 2 then
          match Unsigned7.assert_from (bytes.getD 0 0) with
          | .error e => .error e
          | .ok b0 =>
            match Unsigned7.assert_from (bytes.getD 1 0) with
            | .error e => .error e
            | .ok b1 =>
              .ok ⟨2, .Message (.Channel ⟨channel,
                .ChannelVoice (.NoteOff ⟨⟨b0⟩, ⟨b1⟩⟩)⟩)⟩
        else .error .assertionFailed
      else if status_nibble = CHANNEL_VOICE_MESSAGE_NOTE_ON then
        if bytes.length = 2 then
          match Unsigned7.assert_from (bytes.getD 0 0) with
          | .error e => .error e
          | .ok b0 =>
            match Unsigned7.assert_from (bytes.getD 1 0) with
            | .error e => .error e
            | .ok b1 =>
              .ok ⟨2, .Message (.Channel ⟨channel,
                .ChannelVoice (.NoteOn ⟨⟨b0⟩, ⟨b1⟩⟩)⟩)⟩
        else .error .assertionFailed
      else if status_nibble = CHANNEL_VOICE_MESSAGE_POLYPHONIC_KEY_PRESSURE_AFTERTOUCH then
        if bytes.length = 2 then
          match Unsigned7.assert_from (bytes.getD 0 0) with
          | .error e => .error e
          | .ok b0 =>
            match Unsigned7.assert_from (bytes.getD 1 0) with
            | .error e => .error e
            | .ok b1 =>
              .ok ⟨2, .Message (.Channel ⟨channel,
                .ChannelVoice (.PolyphonicKeyPressureAftertouch ⟨⟨b0⟩, b1⟩)⟩)⟩
        else .error .assertionFailed
      else if status_nibble = CHANNEL_VOICE_MESSAGE_CONTROL_CHANGE_OR_CHANNEL_MODE_MESSAGE then
        if bytes.length = 2 then
          if ¬ (120 ≤ bytes.getD 0 0 ∧ bytes.getD 0 0 ≤ 127) then
            match Unsigned7.assert_from (bytes.getD 0 0) with
            | .error e => .error e
            | .ok b0 =>
              match Unsigned7.assert_from (bytes.getD 1 0) with
              | .error e => .error e
              | .ok b1 =>
                .ok ⟨2, .Message (.Channel ⟨channel,
                  .ChannelVoice (.ControlChange ⟨⟨b0⟩, b1⟩)⟩)⟩
          else
            match ChannelModeMessage.try_from (bytes.getD 0 0) with
            | some m =>
              .ok ⟨2, .Message (.Channel ⟨channel, .ChannelMode m⟩)⟩
            | none => .error .valueConstruction
        else .error .assertionFailed
      else if status_nibble = CHANNEL_VOICE_MESSAGE_PROGRAM_CHANGE then
        if bytes.length = 1 then
          match Unsigned7.assert_from (bytes.getD 0 0) with
          | .error e => .error e
          | .ok b0 =>
            .ok ⟨1, .Message (.Channel ⟨channel,
              .ChannelVoice (.ProgramChange ⟨⟨b0⟩⟩)⟩)⟩
        else .error .assertionFailed
      else if status_nibble = CHANNEL_VOICE_MESSAGE_CHANNEL_PRESSURE_AFTERTOUCH then
        if bytes.length = 1 then
          match Unsigned7.assert_from (bytes.getD 0 0) with
          | .error e => .error e
          | .ok b0 =>
            .ok ⟨1, .Message (.Channel ⟨channel,
              .ChannelVoice (.ChannelPressureAftertouch ⟨b0⟩)⟩)⟩
        else .error .assertionFailed
      else if status_nibble = CHANNEL_VOICE_MESSAGE_PITCH_BEND_CHANGE then
        if bytes.length = 2 then
          match Unsigned14.assert_from (bytes.getD 0 0, bytes.getD 1 0) with
          | .error e => .error e
          | .ok v =>
            .ok ⟨2, .Message (.Channel ⟨channel,
              .ChannelVoice (.PitchBendChange ⟨v⟩)⟩)⟩
        else .error .assertionFailed
      else if status_nibble = SYSTEM_MESSAGE then
        s.parse_system_message bytes
      else .error .unreachableCode

/-- `StatusByte::parse` (src/parser.rs).  The `todo!()` on an interrupting
status byte becomes `.error .todoUnimplemented`. -/
def StatusByte.parse (s : StatusByte) (buf : List Nat) : M MessageParseOutcome :=
  match s.data_bytes buf with
  | .error e => .error e
  | .ok (.Bytes bytes) => s.parse_exact_number_of_bytes bytes
  | .ok (.NeedMore more) => .ok ⟨0, .NeedMoreBytes more⟩
  | .ok (.InterruptingStatusByte _) => .error .todoUnimplemented

/-- `Parser::parse` (src/parser.rs).  State passing is explicit: the result
pairs the outcome with the parser state after the call.  The `assert!` and
`assert_eq!` macros become guards failing to `.error .assertionFailed`. -/
def Parser.parse (p : Parser) (buf : List Nat) :
    M (MessageParseOutcome × Parser) :=
  match buf with
  | [] => .ok (⟨0, .NeedMoreBytes none⟩, p)
  | first_byte :: rest =>
    if is_status_byte first_byte then
      let remaining_bytes := rest
      let status_byte : StatusByte := ⟨first_byte⟩
      match status_byte.parse remaining_bytes with
      | .error e => .error e
      | .ok outcome =>
        if outcome.bytes_consumed ≤ remaining_bytes.length then
          match outcome.status with
          | .Message (.Channel _) =>
            .ok (⟨1 + outcome.bytes_consumed, outcome.status⟩,
              ⟨some status_byte⟩)
          | .Message (.System (.SystemRealTime _)) =>
            .ok (⟨1 + outcome.bytes_consumed, outcome.status⟩,
              ⟨p.running_status_byte⟩)
          | .Message (.System _) =>
            .ok (⟨1 + outcome.bytes_consumed, outcome.status⟩, ⟨none⟩)
          | .NeedMoreBytes _ =>
            if outcome.bytes_consumed = 0 then .ok (outcome, p)
            else .error .assertionFailed
          | .InterruptingSystemRealTimeMessage message byte_index =>
            if outcome.bytes_consumed = 0 then
              .ok (⟨0, .InterruptingSystemRealTimeMessage message
                (1 + byte_index)⟩, p)
            else .error .assertionFailed
          | .UnexpectedDataByte => .error .unreachableCode
          | .UnexpectedEox =>
            .ok (⟨1 + outcome.bytes_consumed, outcome.status⟩, ⟨none⟩)
          | .BrokenMessage =>
            .ok (⟨1 + outcome.bytes_consumed, outcome.status⟩, ⟨none⟩)
        else .error .assertionFailed
    else
      match p.running_status_byte with
      | some running_status_byte =>
        let remaining_bytes := first_byte :: rest
        let status_byte := running_status_byte
        match status_byte.parse remaining_bytes with
        | .error e => .error e
        | .ok outcome =>
          if outcome.bytes_consumed ≤ remaining_bytes.length then
            match outcome.status with
            | .Message (.Channel _) =>
              .ok (⟨outcome.bytes_consumed, outcome.status⟩, p)
            | .Message _ => .error .unreachableCode
            | .NeedMoreBytes _ =>
              if outcome.bytes_consumed = 0 then .ok (outcome, p)
              else .error .assertionFailed
            | .InterruptingSystemRealTimeMessage message byte_index =>
              if outcome.bytes_consumed = 0 then
                .ok (⟨0, .InterruptingSystemRealTimeMessage message
                  byte_index⟩, p)
              else .error .assertionFailed
            | .UnexpectedDataByte => .error .unreachableCode
            | .UnexpectedEox =>
              .ok (⟨outcome.bytes_consumed, outcome.status⟩, ⟨none⟩)
            | .BrokenMessage =>
              .ok (⟨outcome.bytes_consumed, outcome.status⟩, ⟨none⟩)
          else .error .assertionFailed
      | none =>
        .ok (⟨1, .UnexpectedDataByte⟩, p)

/-! Helper lemmas about the embedded definitions. -/

/-- A byte that is not a status byte is in U7 range, given the `u8` bound. -/
lemma status_data_byte_le {b : Nat} (h256 : b < 256)
    (hs : is_status_byte b = false) : b ≤ 127 := by
  have h : ∀ b : Nat, b < 256 → is_status_byte b = false → b ≤ 127 := by decide
  exact h b h256 hs

/-- A byte in U7 range is not a status byte. -/
lemma is_status_byte_eq_false_of_le {b : Nat} (h : b ≤ 127) :
    is_status_byte b = false := by
  have key : ∀ b : Nat, b ≤ 127 → is_status_byte b = false := by decide
  exact key b h

/-- Masking with 0x7F is the identity on U7-range bytes. -/
lemma land127_of_le {b : Nat} (h : b ≤ 127) : b &&& 127 = b := by
  have key : ∀ b : Nat, b ≤ 127 → b &&& 127 = b := by decide
  exact key b h

/-- `Unsigned7::assert_from` succeeds on U7-range input. -/
lemma u7_assert_ok {b : Nat} (h : b ≤ 127) :
    Unsigned7.assert_from b = .ok ⟨b⟩ := by
  simp [Unsigned7.assert_from, Unsigned7.try_from, h]

/-- `MidiChannelId::assert_from` always succeeds on a low nibble. -/
lemma channel_assert_ok (v : Nat) :
    MidiChannelId.assert_from (v &&& 15) = .ok ⟨v &&& 15⟩ := by
  have h : v &&& 15 < 16 := Nat.lt_succ_of_le Nat.and_le_right
  simp [MidiChannelId.assert_from, MidiChannelId.try_from, h]

/-- The channel-mode conversion succeeds on the 120..=127 range. -/
lemma mode_try_from_ne_none {a : Nat} (h1 : 120 ≤ a) (h2 : a ≤ 127) :
    ChannelModeMessage.try_from a ≠ none := by
  have key : ∀ a : Nat, a ≤ 127 → 120 ≤ a → ChannelModeMessage.try_from a ≠ none := by
    decide
  exact key a h2 h1

/-- In-range `getD` returns an element of the list. -/
lemma getD_mem : ∀ (l : List Nat) (k : Nat), k < l.length → l.getD k 0 ∈ l
  | a :: t, 0, _ => List.mem_cons_self a t
  | a :: t, k + 1, h =>
    List.mem_cons_of_mem a (getD_mem t k (by simpa using h))

/-- Bytes produced by `get_data_bytes` come from the input buffer. -/
lemma get_data_bytes_mem {buf : List Nat} {num : Nat} {bs : List Nat}
    (h : get_data_bytes buf num = .Bytes bs) : ∀ b ∈ bs, b ∈ buf := by
  simp only [get_data_bytes] at h
  split at h
  · simp at h
  · split at h
    · simp at h
    · simp only [DataBytes.Bytes.injEq] at h
      subst h
      exact fun b hbm => List.take_subset _ _ hbm

/-- Bytes produced by `get_sysex_bytes` come from the input buffer. -/
lemma get_sysex_bytes_mem {buf : List Nat} {bs : List Nat}
    (h : get_sysex_bytes buf = .Bytes bs) : ∀ b ∈ bs, b ∈ buf := by
  unfold get_sysex_bytes at h
  split at h
  · simp at h
  · split at h
    · simp only [DataBytes.Bytes.injEq] at h
      subst h
      exact fun b hbm => List.take_subset _ _ hbm
    · simp at h

/-- `parse_system_message` never panics with a value-construction fault:
its only outcomes are messages, `UnexpectedEox`, `todo!()`, failed length
assertions and the dead `unreachable!()` arm. -/
lemma parse_system_message_no_vc (s : StatusByte) (bytes : List Nat) :
    s.parse_system_message bytes ≠ .error .valueConstruction := by
  intro h
  obtain ⟨v⟩ := s
  by_cases hrange : 240 ≤ v ∧ v ≤ 255
  · obtain ⟨hlo, hhi⟩ := hrange
    interval_cases v <;>
      (simp [StatusByte.parse_system_message] at h; try (split at h <;> simp_all))
  · have c1 : v ≠ 241 := by omega
    have c2 : v ≠ 242 := by omega
    have c3 : v ≠ 243 := by omega
    have c4 : v ≠ 244 := by omega
    have c5 : v ≠ 245 := by omega
    have c6 : v ≠ 246 := by omega
    have c7 : v ≠ 248 := by omega
    have c8 : v ≠ 249 := by omega
    have c9 : v ≠ 250 := by omega
    have c10 : v ≠ 251 := by omega
    have c11 : v ≠ 252 := by omega
    have c12 : v ≠ 253 := by omega
    have c13 : v ≠ 254 := by omega
    have c14 : v ≠ 255 := by omega
    have c15 : v ≠ 247 := by omega
    have c16 : v ≠ 240 := by omega
    simp [StatusByte.parse_system_message, c1, c2, c3, c4, c5, c6, c7, c8,
      c9, c10, c11, c12, c13, c14, c15, c16] at h

/-- `parse_exact_number_of_bytes` never panics with a value-construction
fault on `u8` input: after the status-byte assertion, every gathered data
byte is in U7 range, the channel nibble is below 16, and a channel-mode
first byte is in 120..=127. -/
lemma parse_exact_no_vc (s : StatusByte) (bytes : List Nat)
    (hb : ∀ b ∈ bytes, b < 256) :
    s.parse_exact_number_of_bytes bytes ≠ .error .valueConstruction := by
  intro h
  obtain ⟨v⟩ := s
  rw [StatusByte.parse_exact_number_of_bytes.eq_def] at h
  simp only [channel_assert_ok] at h
  by_cases hany : bytes.any is_status_byte = true
  · by_cases hv : v = SYSTEM_EXCLUSIVE
    · subst hv
      simp [hany, (by decide : (SYSTEM_EXCLUSIVE : Nat) >>> 4 = 15)] at h
      exact parse_system_message_no_vc _ _ h
    · simp [hv, hany] at h
  · replace hany : bytes.any is_status_byte = false := by simpa using hany
    have hle : ∀ b ∈ bytes, b ≤ 127 := by
      intro b hbm
      refine status_data_byte_le (hb b hbm) ?_
      have hone := List.any_eq_false.mp hany b hbm
      simpa using hone
    have hgetD : ∀ k : Nat, bytes.getD k 0 ≤ 127 := by
      intro k
      by_cases hk : k < bytes.length
      · exact hle _ (getD_mem bytes k hk)
      · rw [List.getD_eq_default] <;> omega
    have h14 : Unsigned14.assert_from (bytes.getD 0 0, bytes.getD 1 0) =
        .ok ⟨((bytes.getD 1 0) <<< 7) ||| (bytes.getD 0 0)⟩ := by
      have hc : bytes.getD 0 0 ≤ 127 ∧ bytes.getD 1 0 ≤ 127 := ⟨hgetD 0, hgetD 1⟩
      simp only [Unsigned14.assert_from, Unsigned14.try_from, if_pos hc]
    rw [if_neg (by simp [hany])] at h
    simp only [u7_assert_ok (hgetD 0), u7_assert_ok (hgetD 1), h14] at h
    generalize hn : v >>> 4 = n at h
    by_cases hr : 8 ≤ n ∧ n ≤ 14
    · obtain ⟨hr1, hr2⟩ := hr
      by_cases hm : 120 ≤ bytes.getD 0 0
      · obtain ⟨mm, hmm⟩ :=
          Option.ne_none_iff_exists'.mp (mode_try_from_ne_none hm (hgetD 0))
        simp only [hmm] at h
        interval_cases n
        all_goals simp at h
        all_goals try (split at h)
        all_goals try simp_all
        all_goals exact absurd h (by split <;> simp)
      · interval_cases n
        all_goals simp [hm] at h
        all_goals try (split at h)
        all_goals simp_all
    · by_cases h15 : n = 15
      · subst h15
        simp at h
        exact parse_system_message_no_vc _ _ h
      · simp [show n ≠ 8 by omega, show n ≠ 9 by omega, show n ≠ 10 by omega,
          show n ≠ 11 by omega, show n ≠ 12 by omega, show n ≠ 13 by omega,
          show n ≠ 14 by omega, h15] at h

/-- `data_bytes` either hits its dead `unreachable!()` arm or returns a
`DataBytes` whose gathered bytes all come from the input buffer. -/
lemma data_bytes_cases (s : StatusByte) (buf : List Nat) :
    s.data_bytes buf = .error .unreachableCode ∨
    ∃ db, s.data_bytes buf = .ok db ∧
      ∀ bs, db = .Bytes bs → ∀ b ∈ bs, b ∈ buf := by
  obtain ⟨v⟩ := s
  rw [StatusByte.data_bytes.eq_def]
  dsimp only
  generalize hn : v >>> 4 = n
  by_cases h8 : n = 8
  · subst h8
    exact Or.inr ⟨_, rfl, fun bs hbs => get_data_bytes_mem hbs⟩
  by_cases h9 : n = 9
  · subst h9
    exact Or.inr ⟨_, rfl, fun bs hbs => get_data_bytes_mem hbs⟩
  by_cases h10 : n = 10
  · subst h10
    exact Or.inr ⟨_, rfl, fun bs hbs => get_data_bytes_mem hbs⟩
  by_cases h11 : n = 11
  · subst h11
    exact Or.inr ⟨_, rfl, fun bs hbs => get_data_bytes_mem hbs⟩
  by_cases h12 : n = 12
  · subst h12
    exact Or.inr ⟨_, rfl, fun bs hbs => get_data_bytes_mem hbs⟩
  by_cases h13 : n = 13
  · subst h13
    exact Or.inr ⟨_, rfl, fun bs hbs => get_data_bytes_mem hbs⟩
  by_cases h14 : n = 14
  · subst h14
    exact Or.inr ⟨_, rfl, fun bs hbs => get_data_bytes_mem hbs⟩
  by_cases h15 : n = 15
  · subst h15
    have hvlo : 240 ≤ v := by
      rw [Nat.shiftRight_eq_div_pow] at hn
      omega
    have hvhi : v ≤ 255 := by
      rw [Nat.shiftRight_eq_div_pow] at hn
      omega
    interval_cases v
    all_goals
      first
        | exact Or.inr ⟨_, rfl, fun bs hbs => get_data_bytes_mem hbs⟩
        | exact Or.inr ⟨_, rfl, fun bs hbs => get_sysex_bytes_mem hbs⟩
  · simp [h8, h9, h10, h11, h12, h13, h14, h15]

/-- `StatusByte::parse` never panics with a value-construction fault on
`u8` input. -/
lemma statusbyte_parse_no_vc (s : StatusByte) (buf : List Nat)
    (hb : ∀ b ∈ buf, b < 256) :
    s.parse buf ≠ .error .valueConstruction := by
  intro h
  rcases data_bytes_cases s buf with herr | ⟨db, hdb, hmem⟩
  · rw [StatusByte.parse.eq_def, herr] at h
    simp at h
  · rw [StatusByte.parse.eq_def, hdb] at h
    cases db with
    | Bytes bs =>
      simp only [] at h
      exact parse_exact_no_vc s bs (fun b hbm => hb b (hmem bs rfl b hbm)) h
    | NeedMore more => simp at h
    | InterruptingStatusByte i => simp at h

/-- A leading System Real-Time byte is decoded from that byte alone:
the message only depends on the byte, one byte is consumed, and the
parser state is returned unchanged. -/
lemma parse_realtime_head (p : Parser) (v : Nat) (h1 : 248 ≤ v) (h2 : v ≤ 255) :
    ∃ m : SystemRealTimeMessage, ∀ buf : List Nat,
      Parser.parse p (v :: buf) =
        .ok (⟨1, .Message (.System (.SystemRealTime m))⟩, p) := by
  interval_cases v
  · exact ⟨.TimingClock, fun buf => by
      simp [Parser.parse, StatusByte.parse, StatusByte.data_bytes, get_data_bytes,
        find_status_index, StatusByte.parse_exact_number_of_bytes,
        StatusByte.parse_system_message, is_status_byte, MidiChannelId.assert_from,
        MidiChannelId.try_from, (by decide : (248 : Nat) &&& 15 = 8)]⟩
  · exact ⟨.Undefined1, fun buf => by
      simp [Parser.parse, StatusByte.parse, StatusByte.data_bytes, get_data_bytes,
        find_status_index, StatusByte.parse_exact_number_of_bytes,
        StatusByte.parse_system_message, is_status_byte, MidiChannelId.assert_from,
        MidiChannelId.try_from, (by decide : (249 : Nat) &&& 15 = 9)]⟩
  · exact ⟨.Start, fun buf => by
      simp [Parser.parse, StatusByte.parse, StatusByte.data_bytes, get_data_bytes,
        find_status_index, StatusByte.parse_exact_number_of_bytes,
        StatusByte.parse_system_message, is_status_byte, MidiChannelId.assert_from,
        MidiChannelId.try_from, (by decide : (250 : Nat) &&& 15 = 10)]⟩
  · exact ⟨.Continue, fun buf => by
      simp [Parser.parse, StatusByte.parse, StatusByte.data_bytes, get_data_bytes,
        find_status_index, StatusByte.parse_exact_number_of_bytes,
        StatusByte.parse_system_message, is_status_byte, MidiChannelId.assert_from,
        MidiChannelId.try_from, (by decide : (251 : Nat) &&& 15 = 11)]⟩
  · exact ⟨.Stop, fun buf => by
      simp [Parser.parse, StatusByte.parse, StatusByte.data_bytes, get_data_bytes,
        find_status_index, StatusByte.parse_exact_number_of_bytes,
        StatusByte.parse_system_message, is_status_byte, MidiChannelId.assert_from,
        MidiChannelId.try_from, (by decide : (252 : Nat) &&& 15 = 12)]⟩
  · exact ⟨.Undefined2, fun buf => by
      simp [Parser.parse, StatusByte.parse, StatusByte.data_bytes, get_data_bytes,
        find_status_index, StatusByte.parse_exact_number_of_bytes,
        StatusByte.parse_system_message, is_status_byte, MidiChannelId.assert_from,
        MidiChannelId.try_from, (by decide : (253 : Nat) &&& 15 = 13)]⟩
  · exact ⟨.ActiveSensing, fun buf => by
      simp [Parser.parse, StatusByte.parse, StatusByte.data_bytes, get_data_bytes,
        find_status_index, StatusByte.parse_exact_number_of_bytes,
        StatusByte.parse_system_message, is_status_byte, MidiChannelId.assert_from,
        MidiChannelId.try_from, (by decide : (254 : Nat) &&& 15 = 14)]⟩
  · exact ⟨.SystemReset, fun buf => by
      simp [Parser.parse, StatusByte.parse, StatusByte.data_bytes, get_data_bytes,
        find_status_index, StatusByte.parse_exact_number_of_bytes,
        StatusByte.parse_system_message, is_status_byte, MidiChannelId.assert_from,
        MidiChannelId.try_from, (by decide : (255 : Nat) &&& 15 = 15)]⟩

/-! Claim theorems. -/

/-- Claim C1 (evidence of the code bug): the claim says that a System
Real-Time byte among the expected data bytes of a fixed-length message
yields `InterruptingSystemRealTimeMessage` with `bytes_consumed = 0` and
the byte's offset.  On the spec's own scenario — fresh parser, input
`[0x90, 0x3C, 0xF8, 0x40]` — the code instead reaches the `todo!()` arm of
`StatusByte::parse` for `DataBytes::InterruptingStatusByte` and panics,
even though the variant's documentation and the dead handler in
`Parser::parse` describe exactly the claimed behaviour. -/
theorem parse_fixed_message_realtime_interruption_hits_todo :
    Parser.parse ⟨none⟩ [0x90, 0x3C, 0xF8, 0x40] = .error .todoUnimplemented := by
  decide

/-- Claim C2 (evidence of the code bug): the claim says a complete SysEx
`[0xF0, payload…, 0xF7]` yields `Message(System(Exclusive))` with the
payload and `bytes_consumed = 6` on the spec's example.  The code gathers
the SysEx bytes, asserts the trailing EOX, and then panics at the
`todo!()` in the `SYSTEM_EXCLUSIVE` arm of `parse_system_message`
(`SystemExclusiveMessage` has no payload field to return either). -/
theorem parse_complete_sysex_hits_todo :
    Parser.parse ⟨none⟩ [0xF0, 0x7E, 0x7F, 0x06, 0x01, 0xF7] =
      .error .todoUnimplemented := by
  decide

/-- Claim C3: from a fresh parser, `[0x90, 0x3C, 0x40]` decodes to NoteOn
channel 0, note 60, velocity 64 with 3 bytes consumed and running status
set to 0x90; a following call on `[0x3E, 0x40]` then decodes NoteOn note
62, velocity 64 under the carried running status, consuming 2 bytes and
keeping the running status. -/
theorem parse_note_on_then_running_status :
    Parser.parse ⟨none⟩ [0x90, 0x3C, 0x40] =
      .ok (⟨3, .Message (.Channel ⟨⟨0⟩, .ChannelVoice (.NoteOn ⟨⟨⟨60⟩⟩, ⟨⟨64⟩⟩⟩)⟩)⟩,
        ⟨some ⟨0x90⟩⟩) ∧
    Parser.parse ⟨some ⟨0x90⟩⟩ [0x3E, 0x40] =
      .ok (⟨2, .Message (.Channel ⟨⟨0⟩, .ChannelVoice (.NoteOn ⟨⟨⟨62⟩⟩, ⟨⟨64⟩⟩⟩)⟩)⟩,
        ⟨some ⟨0x90⟩⟩) := by
  decide

/-- Claim C4 (evidence of the code bug): the claim says each System Common
status byte 0xF1..=0xF6, given its data bytes, yields a System Common
message consuming 1 plus the data-byte count and clears running status.
The code instead panics at the `todo!()` arms of `parse_system_message`
for every one of the six status bytes. -/
theorem parse_system_common_hits_todo :
    Parser.parse ⟨none⟩ [0xF1, 0x00] = .error .todoUnimplemented ∧
    Parser.parse ⟨none⟩ [0xF2, 0x00, 0x00] = .error .todoUnimplemented ∧
    Parser.parse ⟨none⟩ [0xF3, 0x00] = .error .todoUnimplemented ∧
    Parser.parse ⟨none⟩ [0xF4] = .error .todoUnimplemented ∧
    Parser.parse ⟨none⟩ [0xF5] = .error .todoUnimplemented ∧
    Parser.parse ⟨none⟩ [0xF6] = .error .todoUnimplemented := by
  decide

/-- Claim C5: for every parser state and every input whose first byte is a
System Real-Time status byte (0xF8..=0xFF), parse emits the corresponding
`Message(System(SystemRealTime _))`, consumes exactly one byte, and
returns the parser state unchanged. -/
theorem parse_realtime_leading_byte (p : Parser) (buf : List Nat) (v : Nat)
    (h1 : 0xF8 ≤ v) (h2 : v ≤ 0xFF) :
    ∃ m : SystemRealTimeMessage,
      Parser.parse p (v :: buf) =
        .ok (⟨1, .Message (.System (.SystemRealTime m))⟩, p) := by
  obtain ⟨m, hm⟩ := parse_realtime_head p v h1 h2
  exact ⟨m, hm buf⟩

/-- Witness for C5 at a concrete state and input. -/
theorem parse_realtime_leading_byte_witness :
    ((0xF8 : Nat) ≤ 0xF8 ∧ (0xF8 : Nat) ≤ 0xFF) ∧
    ∃ m : SystemRealTimeMessage,
      Parser.parse ⟨some ⟨0x90⟩⟩ [0xF8, 0x11, 0x22] =
        .ok (⟨1, .Message (.System (.SystemRealTime m))⟩, ⟨some ⟨0x90⟩⟩) :=
  ⟨⟨by decide, by decide⟩,
    parse_realtime_leading_byte ⟨some ⟨0x90⟩⟩ [0x11, 0x22] 0xF8
      (by decide) (by decide)⟩

/-- Claim C6: for every parser state and input, whenever parse returns an
outcome, its `bytes_consumed` is at most the input length. -/
theorem parse_bytes_consumed_le_input_length (p : Parser) (buf : List Nat)
    (out : MessageParseOutcome) (p2 : Parser)
    (h : Parser.parse p buf = .ok (out, p2)) :
    out.bytes_consumed ≤ buf.length := by
  obtain ⟨oc, ost⟩ := out
  cases buf with
  | nil =>
    simp [Parser.parse] at h
    simp [h.1]
  | cons first_byte rest =>
    simp only [Parser.parse] at h
    repeat' split at h
    all_goals simp_all
    all_goals omega

/-- Witness for C6 at a concrete state and input. -/
theorem parse_bytes_consumed_le_input_length_witness :
    Parser.parse ⟨none⟩ [0x90, 0x3C, 0x40] =
      .ok (⟨3, .Message (.Channel ⟨⟨0⟩, .ChannelVoice (.NoteOn ⟨⟨⟨60⟩⟩, ⟨⟨64⟩⟩⟩)⟩)⟩,
        ⟨some ⟨0x90⟩⟩) ∧
    (⟨3, .Message (.Channel ⟨⟨0⟩, .ChannelVoice (.NoteOn ⟨⟨⟨60⟩⟩, ⟨⟨64⟩⟩⟩)⟩)⟩ :
        MessageParseOutcome).bytes_consumed ≤
      ([0x90, 0x3C, 0x40] : List Nat).length :=
  ⟨by decide,
    parse_bytes_consumed_le_input_length ⟨none⟩ [0x90, 0x3C, 0x40]
      ⟨3, .Message (.Channel ⟨⟨0⟩, .ChannelVoice (.NoteOn ⟨⟨⟨60⟩⟩, ⟨⟨64⟩⟩⟩)⟩)⟩
      ⟨some ⟨0x90⟩⟩ (by decide)⟩

/-- Claim C7: after `is_status` has rejected a byte it is in U7 range (for
`u8` input), and consequently no value construction performed while
building a message can fail: parse never surfaces the value-construction
fault for any state and `u8` input. -/
theorem parse_never_value_construction_error :
    (∀ b : Nat, b < 256 → is_status_byte b = false → b ≤ 127) ∧
    ∀ (p : Parser) (buf : List Nat), (∀ b ∈ buf, b < 256) →
      Parser.parse p buf ≠ .error .valueConstruction := by
  constructor
  · exact fun b h1 h2 => status_data_byte_le h1 h2
  · intro p buf hb h
    cases buf with
    | nil => simp [Parser.parse] at h
    | cons a rest =>
      simp only [Parser.parse] at h
      split at h
      · cases hsp : StatusByte.parse ⟨a⟩ rest with
        | error e =>
          simp only [hsp] at h
          have he : e = .valueConstruction := by simpa using h
          exact statusbyte_parse_no_vc ⟨a⟩ rest
            (fun b hbm => hb b (List.mem_cons_of_mem a hbm)) (he ▸ hsp)
        | ok outcome =>
          simp only [hsp] at h
          repeat' split at h
          all_goals simp_all
      · cases hrs : p.running_status_byte with
        | some rs =>
          simp only [hrs] at h
          cases hsp : StatusByte.parse rs (a :: rest) with
          | error e =>
            simp only [hsp] at h
            have he : e = .valueConstruction := by simpa using h
            exact statusbyte_parse_no_vc rs (a :: rest) hb (he ▸ hsp)
          | ok outcome =>
            simp only [hsp] at h
            repeat' split at h
            all_goals simp_all
        | none =>
          simp only [hrs] at h
          simp at h

/-- Witness for C7 at concrete bytes and input. -/
theorem parse_never_value_construction_error_witness :
    ((5 : Nat) < 256 ∧ is_status_byte 5 = false ∧ (5 : Nat) ≤ 127) ∧
    Parser.parse ⟨none⟩ [0x90, 0x3C, 0x40] ≠ .error .valueConstruction :=
  ⟨⟨by decide, by decide,
      parse_never_value_construction_error.1 5 (by decide) (by decide)⟩,
    parse_never_value_construction_error.2 ⟨none⟩ [0x90, 0x3C, 0x40]
      (by decide)⟩

/-- Claim C8: PitchBend assembles its 14-bit value as
`((msb &&& 0x7F) <<< 7) ||| (lsb &&& 0x7F)` from the two data bytes in
wire order `[lsb, msb]`; in particular `[0xE0, 0x00, 0x40]` parses to
PitchBend channel 0 with value 0x2000 and 3 bytes consumed, and
`is_centered` returns true on that message. -/
theorem parse_pitch_bend_assembles_u14 :
    (∀ lsb msb : Nat, lsb ≤ 127 → msb ≤ 127 →
      Parser.parse ⟨none⟩ [0xE0, lsb, msb] =
        .ok (⟨3, .Message (.Channel ⟨⟨0⟩, .ChannelVoice (.PitchBendChange
          ⟨⟨((msb &&& 0x7F) <<< 7) ||| (lsb &&& 0x7F)⟩⟩)⟩)⟩, ⟨some ⟨0xE0⟩⟩)) ∧
    Parser.parse ⟨none⟩ [0xE0, 0x00, 0x40] =
      .ok (⟨3, .Message (.Channel ⟨⟨0⟩, .ChannelVoice (.PitchBendChange
        ⟨⟨0x2000⟩⟩)⟩)⟩, ⟨some ⟨0xE0⟩⟩) ∧
    PitchBendChange.is_centered ⟨⟨0x2000⟩⟩ = true := by
  refine ⟨?_, by decide, by decide⟩
  intro lsb msb h1 h2
  simp [Parser.parse, StatusByte.parse, StatusByte.data_bytes, get_data_bytes,
    find_status_index, StatusByte.parse_exact_number_of_bytes,
    Unsigned14.assert_from, Unsigned14.try_from, MidiChannelId.assert_from,
    MidiChannelId.try_from, is_status_byte_eq_false_of_le h1,
    is_status_byte_eq_false_of_le h2, land127_of_le h1, land127_of_le h2,
    h1, h2, (by decide : (224 : Nat) &&& 15 = 0),
    (by decide : is_status_byte 224 = true)]

/-- Witness for C8 at concrete data bytes. -/
theorem parse_pitch_bend_assembles_u14_witness :
    ((5 : Nat) ≤ 127 ∧ (6 : Nat) ≤ 127) ∧
    Parser.parse ⟨none⟩ [0xE0, 5, 6] =
      .ok (⟨3, .Message (.Channel ⟨⟨0⟩, .ChannelVoice (.PitchBendChange
        ⟨⟨(((6 : Nat) &&& 0x7F) <<< 7) ||| ((5 : Nat) &&& 0x7F)⟩⟩)⟩)⟩,
        ⟨some ⟨0xE0⟩⟩) :=
  ⟨⟨by decide, by decide⟩,
    parse_pitch_bend_assembles_u14.1 5 6 (by decide) (by decide)⟩

/-- Claim C9: `should_note_off` returns `Some` exactly for `NoteOff` and
for `NoteOn` with velocity 0, and the returned pair is the message's note
number and velocity. -/
theorem should_note_off_iff_noteoff_or_silent_noteon
    (m : ChannelVoiceMessage) :
    ((m.should_note_off).isSome = true ↔
      ((∃ x, m = .NoteOff x) ∨ (∃ x, m = .NoteOn x ∧ x.velocity.u7.val = 0))) ∧
    (∀ n v, m.should_note_off = some (n, v) →
      m = .NoteOff ⟨n, v⟩ ∨ (m = .NoteOn ⟨n, v⟩ ∧ v.u7.val = 0)) := by
  cases m with
  | NoteOff x =>
    refine ⟨by simp [ChannelVoiceMessage.should_note_off], ?_⟩
    intro n v h
    simp [ChannelVoiceMessage.should_note_off] at h
    left
    obtain ⟨h1, h2⟩ := h
    cases x
    simp_all
  | NoteOn x =>
    constructor
    · simp only [ChannelVoiceMessage.should_note_off]
      split <;> simp_all
    · intro n v h
      simp only [ChannelVoiceMessage.should_note_off] at h
      split at h <;> simp_all
      obtain ⟨h1, h2⟩ := h
      cases x
      simp_all
  | PolyphonicKeyPressureAftertouch x =>
    exact ⟨by simp [ChannelVoiceMessage.should_note_off], by
      intro n v h; simp [ChannelVoiceMessage.should_note_off] at h⟩
  | ControlChange x =>
    exact ⟨by simp [ChannelVoiceMessage.should_note_off], by
      intro n v h; simp [ChannelVoiceMessage.should_note_off] at h⟩
  | ProgramChange x =>
    exact ⟨by simp [ChannelVoiceMessage.should_note_off], by
      intro n v h; simp [ChannelVoiceMessage.should_note_off] at h⟩
  | ChannelPressureAftertouch x =>
    exact ⟨by simp [ChannelVoiceMessage.should_note_off], by
      intro n v h; simp [ChannelVoiceMessage.should_note_off] at h⟩
  | PitchBendChange x =>
    exact ⟨by simp [ChannelVoiceMessage.should_note_off], by
      intro n v h; simp [ChannelVoiceMessage.should_note_off] at h⟩

/-- Witness for C9 at a concrete NoteOn with velocity 0. -/
theorem should_note_off_iff_noteoff_or_silent_noteon_witness :
    ((ChannelVoiceMessage.NoteOn ⟨⟨⟨60⟩⟩, ⟨⟨0⟩⟩⟩).should_note_off =
      some (⟨⟨60⟩⟩, ⟨⟨0⟩⟩)) ∧
    ((ChannelVoiceMessage.NoteOn ⟨⟨⟨60⟩⟩, ⟨⟨0⟩⟩⟩ =
        .NoteOff ⟨⟨⟨60⟩⟩, ⟨⟨0⟩⟩⟩) ∨
      (ChannelVoiceMessage.NoteOn ⟨⟨⟨60⟩⟩, ⟨⟨0⟩⟩⟩ =
          .NoteOn ⟨⟨⟨60⟩⟩, ⟨⟨0⟩⟩⟩ ∧ (⟨⟨0⟩⟩ : KeyVelocity).u7.val = 0)) :=
  ⟨by decide,
    (should_note_off_iff_noteoff_or_silent_noteon _).2 ⟨⟨60⟩⟩ ⟨⟨0⟩⟩ (by decide)⟩

/-- Claim C10: two parse calls from the same state on inputs sharing a
leading System Real-Time byte but differing arbitrarily afterwards return
identical results (outcome and final state): the result of a leading
Real-Time byte depends only on that byte. -/
theorem parse_realtime_first_byte_noninterference (p : Parser)
    (buf1 buf2 : List Nat) (v : Nat) (h1 : 0xF8 ≤ v) (h2 : v ≤ 0xFF) :
    Parser.parse p (v :: buf1) = Parser.parse p (v :: buf2) := by
  obtain ⟨m, hm⟩ := parse_realtime_head p v h1 h2
  rw [hm buf1, hm buf2]

/-- Witness for C10 at a concrete state and two concrete inputs. -/
theorem parse_realtime_first_byte_noninterference_witness :
    ((0xF8 : Nat) ≤ 0xFA ∧ (0xFA : Nat) ≤ 0xFF) ∧
    Parser.parse ⟨none⟩ [0xFA, 0x01] = Parser.parse ⟨none⟩ [0xFA, 0x63, 0xC8] :=
  ⟨⟨by decide, by decide⟩,
    parse_realtime_first_byte_noninterference ⟨none⟩ [0x01] [0x63, 0xC8] 0xFA
      (by decide) (by decide)⟩

end Muddy
